import Mathlib

/-!
Verification of the Oahu dive-conditions scoring/ranking engine.

The definitions below are a shallow embedding of the Python sources:
* `src/core/scorer.py`   — `DiveScorer` (safety gates, component scores,
  weighted total, grade, result assembly),
* `src/core/ranker.py`   — `SiteRanker.rank_sites` (batch scoring, stable
  descending sort, rank assignment, truncation),
* `src/digests/daily_digest.py` — the digest statistics, top-sites filter and
  the per-day recommended-beach filters.

Python floats are modelled by `ℚ` (the scoring arithmetic is exact decimal
arithmetic at every input the spec discusses), `None` by `Option`, and string
lowering/uppering by a character-wise map (ASCII, as in the source data).
-/

/-- ASCII-faithful model of Python's `str.lower()` (character-wise). -/
def pyLower (s : String) : String := String.mk (s.data.map Char.toLower)

/-- ASCII-faithful model of Python's `str.upper()` (character-wise). -/
def pyUpper (s : String) : String := String.mk (s.data.map Char.toUpper)

/-- Python `round` rounds half to even; `roundHalfEven q` is `round(q)` on a
rational. -/
def roundHalfEven (q : ℚ) : ℤ :=
  if q - ⌊q⌋ < 1/2 then ⌊q⌋
  else if q - ⌊q⌋ > 1/2 then ⌊q⌋ + 1
  else if ⌊q⌋ % 2 = 0 then ⌊q⌋ else ⌊q⌋ + 1

/-- Python `round(q, ndigits)` on a rational. -/
def pyRound (q : ℚ) (ndigits : ℕ) : ℚ :=
  ((roundHalfEven (q * 10 ^ ndigits) : ℤ) : ℚ) / 10 ^ ndigits

/-- Decimal rendering of a rational with one digit, standing in for the
Python float formatting used inside gate-failure messages (`f"{x:.1f}"` /
`f"{x}"`); the claims never depend on the digits themselves. -/
def fmtTenths (q : ℚ) : String :=
  let n : ℤ := roundHalfEven (q * 10)
  toString (n / 10) ++ "." ++ toString (n % 10)

/-- Rendering with no decimal digit (`f"{x:.0f}"`). -/
def fmtWhole (q : ℚ) : String := toString (roundHalfEven q)

/-- Model of `ScoreGrade` in `src/core/scorer.py`: letter grade for dive conditions. -/
inductive ScoreGrade
  | EXCELLENT
  | GOOD
  | FAIR
  | POOR
  | UNSAFE
deriving DecidableEq, Repr

/-- Model of `SafetyGate` in `src/core/scorer.py` (only ever constructed with a reason
and gate name, so those fields are not optional here). -/
structure SafetyGate where
  passed : Bool
  reason : String
  gate_name : String
deriving DecidableEq, Repr

/-- Model of `ScoringInput` in `src/core/scorer.py`.  `evaluation_hour` models
`evaluation_time.hour` (only the hour of the datetime is ever read);
`none` models `evaluation_time=None`. -/
structure ScoringInput where
  wave_height_ft : Option ℚ := none
  wave_period_s : Option ℚ := none
  swell_direction_deg : Option ℚ := none
  wind_speed_mph : Option ℚ := none
  wind_direction_deg : Option ℚ := none
  rainfall_48h_inches : Option ℚ := none
  stream_discharge_cfs : Option ℚ := none
  brown_water_advisory : Bool := false
  tide_phase : Option String := none
  water_level_ft : Option ℚ := none
  evaluation_hour : Option ℕ := none
  high_surf_warning : Bool := false
  high_surf_advisory : Bool := false
  site_max_safe_height_ft : ℚ := 6.0
  site_optimal_tide : String := "any"
  site_swell_exposure_primary : Option String := none
deriving DecidableEq, Repr

/-- Model of `ScoringResult` in `src/core/scorer.py`. -/
structure ScoringResult where
  total_score : ℚ
  grade : ScoreGrade
  diveable : Bool
  wave_power_score : ℚ
  wind_score : ℚ
  visibility_score : ℚ
  tide_score : ℚ
  time_score : ℚ
  safety_gates_passed : Bool
  failed_gates : List SafetyGate
  wave_power_index : Option ℚ := none
  wind_type : String := "unknown"
  summary : String := ""
  warnings : List String := []
deriving DecidableEq, Repr

/-- Model of `DiveScorer.WEIGHT_WAVE_POWER`. -/
def WEIGHT_WAVE_POWER : ℚ := 0.35

/-- Model of `DiveScorer.WEIGHT_WIND`. -/
def WEIGHT_WIND : ℚ := 0.25

/-- Model of `DiveScorer.WEIGHT_VISIBILITY`. -/
def WEIGHT_VISIBILITY : ℚ := 0.20

/-- Model of `DiveScorer.WEIGHT_TIDE`. -/
def WEIGHT_TIDE : ℚ := 0.10

/-- Model of `DiveScorer.WEIGHT_TIME`. -/
def WEIGHT_TIME : ℚ := 0.10

/-- Model of `DiveScorer.WPI_EXCELLENT`. -/
def WPI_EXCELLENT : ℚ := 5

/-- Model of `DiveScorer.WPI_POOR`. -/
def WPI_POOR : ℚ := 50

/-- Model of `DiveScorer.WIND_CALM`. -/
def WIND_CALM : ℚ := 5

/-- Model of `DiveScorer.WIND_MODERATE`. -/
def WIND_MODERATE : ℚ := 15

/-- Model of `DiveScorer.WIND_STRONG`. -/
def WIND_STRONG : ℚ := 25

/-- Model of `DiveScorer.DISCHARGE_LOW`. -/
def DISCHARGE_LOW : ℚ := 5

/-- Model of `DiveScorer.DISCHARGE_HIGH`. -/
def DISCHARGE_HIGH : ℚ := 50

/-- Model of `DiveScorer.RAINFALL_NONE`. -/
def RAINFALL_NONE : ℚ := 0.1

/-- Model of `DiveScorer.RAINFALL_HEAVY`. -/
def RAINFALL_HEAVY : ℚ := 2.0

/-- Model of `DiveScorer.MAX_WAVE_HEIGHT_FT` (global default safe wave height). -/
def MAX_WAVE_HEIGHT_FT : ℚ := 6.0

/-- Model of `DiveScorer.calculate_wave_power_index`: `height² × period`, `None` when
either input is missing, the height is negative or the period is ≤ 0. -/
def calculate_wave_power_index (height_ft period_s : Option ℚ) : Option ℚ :=
  match height_ft, period_s with
  | some h, some p => if h < 0 ∨ p ≤ 0 then none else some (h ^ 2 * p)
  | _, _ => none

/-- Reason string of the brown-water gate. -/
def brownWaterReason : String :=
  "Brown Water Advisory active - poor visibility and water quality"

/-- Gate 1 of `DiveScorer.check_safety_gates`: brown water advisory. -/
def brown_gate (inputs : ScoringInput) : List SafetyGate :=
  if inputs.brown_water_advisory then
    [{ passed := false, reason := brownWaterReason,
       gate_name := "brown_water_advisory" }]
  else []

/-- The threshold used by gate 2: `inputs.site_max_safe_height_ft or
MAX_WAVE_HEIGHT_FT` — the Python `or` falls back to the global default when
the per-site value is falsy, i.e. equal to `0.0`. -/
def effective_max_height (inputs : ScoringInput) : ℚ :=
  if inputs.site_max_safe_height_ft = 0 then MAX_WAVE_HEIGHT_FT
  else inputs.site_max_safe_height_ft

/-- Reason string of the wave-height gate. -/
def waveHeightReason (h max_height : ℚ) : String :=
  "Wave height (" ++ fmtTenths h ++ "ft) exceeds safe threshold (" ++
    fmtTenths max_height ++ "ft)"

/-- Gate 2 of `DiveScorer.check_safety_gates`: wave height strictly above the
site threshold (only when the wave height is known). -/
def wave_gate (inputs : ScoringInput) : List SafetyGate :=
  match inputs.wave_height_ft with
  | some h =>
    if h > effective_max_height inputs then
      [{ passed := false,
         reason := waveHeightReason h (effective_max_height inputs),
         gate_name := "wave_height_exceeded" }]
    else []
  | none => []

/-- Model of `DiveScorer.check_safety_gates`: `(all_passed, failed_gates)`, gates
checked in order (brown water, then wave height). -/
def check_safety_gates (inputs : ScoringInput) : Bool × List SafetyGate :=
  let failed_gates := brown_gate inputs ++ wave_gate inputs
  (failed_gates.isEmpty, failed_gates)

/-- Model of `DiveScorer.score_wave_power`: 100 at WPI ≤ 5, 0 at WPI ≥ 50, linear
between, neutral 50 when the WPI is unavailable. -/
def score_wave_power (wpi : Option ℚ) : ℚ :=
  match wpi with
  | none => 50
  | some w =>
    if w ≤ WPI_EXCELLENT then 100
    else if w ≥ WPI_POOR then 0
    else 100 * (WPI_POOR - w) / (WPI_POOR - WPI_EXCELLENT)

/-- The base speed score computed at the top of `DiveScorer.score_wind`. -/
def speed_score (s : ℚ) : ℚ :=
  if s ≤ WIND_CALM then 100
  else if s ≥ WIND_STRONG then 20
  else 100 - 80 * (s - WIND_CALM) / (WIND_STRONG - WIND_CALM)

/-- The compass-point table in `DiveScorer._calculate_offshore_factor`
(`exposure_map.get(site_exposure.upper(), 0)`). -/
def exposureDegrees (e : String) : ℚ :=
  if pyUpper e = "N" then 0
  else if pyUpper e = "NNE" then 22.5
  else if pyUpper e = "NE" then 45
  else if pyUpper e = "ENE" then 67.5
  else if pyUpper e = "E" then 90
  else if pyUpper e = "ESE" then 112.5
  else if pyUpper e = "SE" then 135
  else if pyUpper e = "SSE" then 157.5
  else if pyUpper e = "S" then 180
  else if pyUpper e = "SSW" then 202.5
  else if pyUpper e = "SW" then 225
  else if pyUpper e = "WSW" then 247.5
  else if pyUpper e = "W" then 270
  else if pyUpper e = "WNW" then 292.5
  else if pyUpper e = "NW" then 315
  else if pyUpper e = "NNW" then 337.5
  else 0

/-- The two `while` loops of `_calculate_offshore_factor` normalizing the
angle difference into `[-180, 180]` (the first subtracts 360 while the value
is above 180, the second adds 360 while it is below −180); this is their
fixpoint in closed form. -/
def normalizeDiff (d : ℚ) : ℚ :=
  if d > 180 then d - 360 * ((⌈(d - 180) / 360⌉ : ℤ) : ℚ)
  else if d < -180 then d + 360 * ((⌈(-180 - d) / 360⌉ : ℤ) : ℚ)
  else d

/-- Model of `DiveScorer._calculate_offshore_factor`: +1 pure offshore, −1 pure
onshore, clamped linear interpolation via the normalized angle difference. -/
def calculate_offshore_factor (wind_direction_deg : ℚ) (site_exposure : String) : ℚ :=
  let diff := normalizeDiff (wind_direction_deg - exposureDegrees site_exposure)
  max (-1) (min 1 ((|diff| - 90) / 90))

/-- Model of `DiveScorer.score_wind`: `(score 0-100, wind_type)`. -/
def score_wind (wind_speed_mph wind_direction_deg : Option ℚ)
    (site_exposure_primary : Option String) : ℚ × String :=
  match wind_speed_mph with
  | none => (50, "unknown")
  | some s =>
    match wind_direction_deg, site_exposure_primary with
    | some d, some e =>
      let f := calculate_offshore_factor d e
      if f > 0.5 then
        (max 0 (min 100 (min 100 (speed_score s + f * 30))), "offshore")
      else if f < -0.5 then
        (max 0 (min 100 (max 0 (speed_score s - |f| * (40 + s * 2)))), "onshore")
      else
        (max 0 (min 100 (speed_score s * 0.9)), "cross-shore")
    | _, _ => (max 0 (min 100 (speed_score s)), "variable")

/-- Model of `DiveScorer.score_visibility`. -/
def score_visibility (rainfall_48h discharge_cfs : Option ℚ)
    (brown_water_advisory : Bool) : ℚ :=
  if brown_water_advisory then 10
  else
    let rain_scores : List ℚ :=
      match rainfall_48h with
      | some r =>
        [if r ≤ RAINFALL_NONE then 100
         else if r ≥ RAINFALL_HEAVY then 0
         else 100 * (RAINFALL_HEAVY - r) / (RAINFALL_HEAVY - RAINFALL_NONE)]
      | none => []
    let discharge_scores : List ℚ :=
      match discharge_cfs with
      | some c =>
        [if c ≤ DISCHARGE_LOW then 100
         else if c ≥ DISCHARGE_HIGH then 0
         else 100 * (DISCHARGE_HIGH - c) / (DISCHARGE_HIGH - DISCHARGE_LOW)]
      | none => []
    match rain_scores ++ discharge_scores with
    | [] => 70
    | x :: xs => xs.foldl min x

/-- Model of `DiveScorer.score_tide`. -/
def score_tide (tide_phase : Option String) (site_optimal_tide : String) : ℚ :=
  if site_optimal_tide = "any" then 100
  else
    match tide_phase with
    | none => 70
    | some tp =>
      let tpl := pyLower tp
      let so := pyLower site_optimal_tide
      if so = tpl then 100
      else if so = "high" then
        (if tpl = "rising" then 80 else if tpl = "falling" then 60 else 30)
      else if so = "low" then
        (if tpl = "falling" then 80 else if tpl = "rising" then 60 else 30)
      else 70

/-- Model of `DiveScorer.score_time_of_day`; `nowHour` supplies `datetime.now().hour`
for the defaulted case. -/
def score_time_of_day (nowHour : ℕ) (evaluation_hour : Option ℕ) : ℚ :=
  let hour := evaluation_hour.getD nowHour
  if 5 ≤ hour ∧ hour < 7 then 100
  else if 7 ≤ hour ∧ hour < 9 then 95
  else if 9 ≤ hour ∧ hour < 11 then 80
  else if 11 ≤ hour ∧ hour < 14 then 60
  else if 14 ≤ hour ∧ hour < 17 then 50
  else if 17 ≤ hour ∧ hour < 19 then 70
  else 40

/-- The weighted total computed in `DiveScorer.calculate_score` after the
gates pass (full precision, before any rounding). -/
def weightedTotal (nowHour : ℕ) (inputs : ScoringInput) : ℚ :=
  score_wave_power
      (calculate_wave_power_index inputs.wave_height_ft inputs.wave_period_s) *
    WEIGHT_WAVE_POWER +
  (score_wind inputs.wind_speed_mph inputs.wind_direction_deg
      inputs.site_swell_exposure_primary).1 * WEIGHT_WIND +
  score_visibility inputs.rainfall_48h_inches inputs.stream_discharge_cfs
      inputs.brown_water_advisory * WEIGHT_VISIBILITY +
  score_tide inputs.tide_phase inputs.site_optimal_tide * WEIGHT_TIDE +
  score_time_of_day nowHour inputs.evaluation_hour * WEIGHT_TIME

/-- Model of `DiveScorer._score_to_grade`. -/
def score_to_grade (score : ℚ) : ScoreGrade :=
  if score ≥ 85 then ScoreGrade.EXCELLENT
  else if score ≥ 70 then ScoreGrade.GOOD
  else if score ≥ 55 then ScoreGrade.FAIR
  else if score ≥ 40 then ScoreGrade.POOR
  else ScoreGrade.UNSAFE

/-- The grade descriptions of `DiveScorer._generate_summary`. -/
def grade_description : ScoreGrade → String
  | ScoreGrade.EXCELLENT => "Excellent conditions"
  | ScoreGrade.GOOD => "Good conditions"
  | ScoreGrade.FAIR => "Fair conditions - some challenges"
  | ScoreGrade.POOR => "Poor conditions - experienced divers only"
  | ScoreGrade.UNSAFE => "Unsafe - diving not recommended"

/-- Model of `DiveScorer._generate_summary` (gates-passed branch only; the unsafe
branch builds its summary inline in `calculate_score`). -/
def generate_summary (grade : ScoreGrade) (wpi : Option ℚ)
    (inputs : ScoringInput) (wind_type : String) : String :=
  let parts : List String :=
    [grade_description grade] ++
    (match inputs.wave_height_ft with
     | some h => ["Waves: " ++ fmtTenths h ++ "ft"]
     | none => []) ++
    (match inputs.wind_speed_mph with
     | some s =>
       ["Wind: " ++ fmtWhole s ++ "mph" ++
        (if wind_type = "offshore" then " offshore ✓"
         else if wind_type = "onshore" then " onshore ✗" else "")]
     | none => []) ++
    (match wpi with
     | some w =>
       [if w < 10 then "Calm seas"
        else if w < 25 then "Moderate swells" else "Large swells"]
     | none => [])
  String.intercalate " | " parts

/-- The warnings accumulated in `DiveScorer.calculate_score` (gates-passed
branch).  The truthiness test `inputs.wind_speed_mph and ... > 10` is,
for a known speed, equivalent to `s > 10`. -/
def build_warnings (inputs : ScoringInput) (wpi : Option ℚ)
    (wind_type : String) (visibility_score : ℚ) : List String :=
  (if inputs.high_surf_warning then
     ["High Surf Warning in effect for some areas"] else []) ++
  (if inputs.high_surf_advisory then
     ["High Surf Advisory in effect - use caution"] else []) ++
  (match wpi with
   | some w =>
     if w > 20 then
       ["Elevated wave power index (" ++ fmtTenths w ++ ") - challenging conditions"]
     else []
   | none => []) ++
  (match inputs.wind_speed_mph with
   | some s =>
     if wind_type = "onshore" ∧ s > 10 then
       ["Onshore winds (" ++ fmtWhole s ++ " mph) - expect choppy conditions"]
     else if s > 20 then ["Strong winds (" ++ fmtWhole s ++ " mph)"]
     else []
   | none => []) ++
  (if visibility_score < 50 then
     ["Reduced visibility likely due to recent rainfall or runoff"] else [])

/-- Model of `DiveScorer.calculate_score`.  `nowHour` models the ambient clock hour
used when no evaluation time is supplied.  The gates-failed branch returns
the zeroed result; otherwise the five component scores are combined by
`weightedTotal`.  Note the gates-passed branch reports
`round(wpi, 2) if wpi else None` (truthiness: a zero WPI is reported as
`None`), while the gates-failed branch reports the raw WPI. -/
def calculate_score (nowHour : ℕ) (inputs : ScoringInput) : ScoringResult :=
  let gates := check_safety_gates inputs
  if gates.1 = false then
    { total_score := 0
      grade := ScoreGrade.UNSAFE
      diveable := false
      wave_power_score := 0
      wind_score := 0
      visibility_score := 0
      tide_score := 0
      time_score := 0
      safety_gates_passed := false
      failed_gates := gates.2
      wave_power_index :=
        calculate_wave_power_index inputs.wave_height_ft inputs.wave_period_s
      summary := "CONDITIONS UNSAFE - " ++
        String.intercalate "; " (gates.2.map SafetyGate.reason)
      warnings := gates.2.map SafetyGate.reason }
  else
    let wpi := calculate_wave_power_index inputs.wave_height_ft inputs.wave_period_s
    let wind := score_wind inputs.wind_speed_mph inputs.wind_direction_deg
      inputs.site_swell_exposure_primary
    let visibility_score := score_visibility inputs.rainfall_48h_inches
      inputs.stream_discharge_cfs inputs.brown_water_advisory
    let total_score := weightedTotal nowHour inputs
    let grade := score_to_grade total_score
    { total_score := pyRound total_score 1
      grade := grade
      diveable := decide (total_score ≥ 40)
      wave_power_score := pyRound (score_wave_power wpi) 1
      wind_score := pyRound wind.1 1
      visibility_score := pyRound visibility_score 1
      tide_score := pyRound (score_tide inputs.tide_phase inputs.site_optimal_tide) 1
      time_score := pyRound (score_time_of_day nowHour inputs.evaluation_hour) 1
      safety_gates_passed := true
      failed_gates := []
      wave_power_index :=
        match wpi with
        | some w => if w = 0 then none else some (pyRound w 2)
        | none => none
      wind_type := wind.2
      summary := generate_summary grade wpi inputs wind.2
      warnings := build_warnings inputs wpi wind.2 visibility_score }

/-- Model of `RankedSite` in `src/core/ranker.py`, parametrized by the site payload
type; `rank` defaults to 0 and is only set by `rank_sites`. -/
structure RankedSite (α : Type) where
  site : α
  score : ScoringResult
  rank : ℕ := 0
deriving DecidableEq, Repr

/-- The ordering used by `ranked_sites.sort(key=lambda x:
x.score.total_score, reverse=True)`: descending by total score. -/
def rankGE {α : Type} (a b : RankedSite α) : Prop :=
  b.score.total_score ≤ a.score.total_score

instance {α : Type} : DecidableRel (@rankGE α) :=
  fun a b =>
    inferInstanceAs (Decidable (b.score.total_score ≤ a.score.total_score))

instance {α : Type} : IsTotal (RankedSite α) rankGE := by
  constructor
  intro a b
  exact le_total b.score.total_score a.score.total_score

instance {α : Type} : IsTrans (RankedSite α) rankGE := by
  constructor
  intro a b c h1 h2
  exact le_trans h2 h1

/-- The scoring loop of `SiteRanker.rank_sites`: each site is scored
independently (`scoreSite` models `score_site`, with `Except.error` standing
for a raised exception, which the loop catches and logs); a failing site is
omitted, and surviving results below `min_score` are dropped. -/
def scored_sites {α : Type} (scoreSite : α → Except String ScoringResult)
    (sites : List α) (min_score : ℚ) : List (RankedSite α) :=
  sites.filterMap fun s =>
    match scoreSite s with
    | Except.ok r =>
      if r.total_score ≥ min_score then some { site := s, score := r } else none
    | Except.error _ => none

/-- The rank-assignment loop `for i, ranked in enumerate(ranked_sites, 1)`. -/
def assign_ranks {α : Type} : ℕ → List (RankedSite α) → List (RankedSite α)
  | _, [] => []
  | n, x :: xs => { x with rank := n } :: assign_ranks (n + 1) xs

/-- Model of `SiteRanker.rank_sites`: score every site (omitting failures), drop
scores below `min_score`, stable-sort descending by total score (Python's
sort is stable; `List.insertionSort` with `rankGE` realizes the same stable
order), assign 1-based ranks, then truncate to `top_n` — `if top_n:` is a
truthiness test, so `top_n = 0` does not truncate. -/
def rank_sites {α : Type} (scoreSite : α → Except String ScoringResult)
    (sites : List α) (min_score : ℚ) (top_n : Option ℕ) : List (RankedSite α) :=
  let ranked := assign_ranks 1
    (List.insertionSort rankGE (scored_sites scoreSite sites min_score))
  match top_n with
  | some n => if n ≠ 0 then ranked.take n else ranked
  | none => ranked

/-- The fields of a ranked site that the digest statistics read
(`DigestGenerator.generate` / `_generate_forecast` in
`src/digests/daily_digest.py`). -/
structure DigestSite where
  name : String
  diveable : Bool
  wave_height_ft : Option ℚ := none
deriving DecidableEq, Repr

/-- Model of `"hanauma" in name.lower()` — the case-insensitive Hanauma Bay test. -/
def containsHanauma (name : String) : Bool :=
  decide ("hanauma".data <:+: (pyLower name).data)

/-- Model of `digest.total_sites = len(all_ranked)`. -/
def digest_total_sites (all_ranked : List DigestSite) : ℕ := all_ranked.length

/-- Model of `digest.diveable_sites = sum(1 for r in all_ranked if r.is_diveable)`. -/
def digest_diveable_sites (all_ranked : List DigestSite) : ℕ :=
  (all_ranked.filter fun r => r.diveable).length

/-- Model of `digest.top_sites`: Hanauma Bay is filtered out of the ranked list before
the top-N slice is taken. -/
def digest_top_sites (all_ranked : List DigestSite) (top_sites_count : ℕ) :
    List DigestSite :=
  (all_ranked.filter fun r => ¬ containsHanauma r.name).take top_sites_count

/-- The membership filter of the TODAY recommended-beach loop in
`_generate_forecast`: `continue` on a Hanauma match and on an unknown or
> 6 ft wave height; every surviving site produces one entry. -/
def today_recommended (ranked_sites : List DigestSite) : List DigestSite :=
  ranked_sites.filter fun s =>
    !containsHanauma s.name &&
      (match s.wave_height_ft with
       | some h => decide (h ≤ 6)
       | none => false)

/-- The membership filter of the FUTURE-day recommended-beach loop in
`_generate_forecast`: `continue` on a Hanauma match, then on an unresolved or
> 6 ft forecast wave height.  `waveOracle` models the PacIOOS / coast-average
/ buoy fallback chain that resolves the forecast height for a site. -/
def future_recommended (waveOracle : DigestSite → Option ℚ)
    (ranked_sites : List DigestSite) : List DigestSite :=
  ranked_sites.filter fun s =>
    !containsHanauma s.name &&
      (match waveOracle s with
       | some h => decide (h ≤ 6)
       | none => false)

/-- Helper: closed form of `score_wave_power` on a known WPI. -/
theorem score_wave_power_eq (w : ℚ) :
    score_wave_power (some w) =
      if w ≤ 5 then 100 else if 50 ≤ w then 0 else 100 * (50 - w) / 45 := by
  simp only [score_wave_power, WPI_EXCELLENT, WPI_POOR, ge_iff_le]
  norm_num

/-- Helper: the base wind speed score is at least 20. -/
theorem speed_score_ge_20 (s : ℚ) : 20 ≤ speed_score s := by
  unfold speed_score WIND_CALM WIND_STRONG
  split_ifs with h1 h2
  · norm_num
  · norm_num
  · push_neg at h1 h2
    have h3 : 100 - 80 * (s - 5) / (25 - 5) = 120 - 4 * s := by ring
    rw [h3]
    linarith

/-- Helper: the base wind speed score is at most 100. -/
theorem speed_score_le_100 (s : ℚ) : speed_score s ≤ 100 := by
  unfold speed_score WIND_CALM WIND_STRONG
  split_ifs with h1 h2
  · norm_num
  · norm_num
  · push_neg at h1
    have h3 : 100 - 80 * (s - 5) / (25 - 5) = 120 - 4 * s := by ring
    rw [h3]
    linarith

/-- C3: `calculate_wave_power_index(height, period)` equals `height² ×
period` exactly for every non-negative height and positive period, and
returns `none` (it cannot raise) whenever either input is missing, the
height is negative, or the period is ≤ 0; in particular WPI(2,10) = 40 and
WPI(1.5,8) = 18. -/
theorem wpi_spec :
    (∀ h p : ℚ, 0 ≤ h → 0 < p →
      calculate_wave_power_index (some h) (some p) = some (h ^ 2 * p))
  ∧ (∀ p : Option ℚ, calculate_wave_power_index none p = none)
  ∧ (∀ h : Option ℚ, calculate_wave_power_index h none = none)
  ∧ (∀ h p : ℚ, h < 0 → calculate_wave_power_index (some h) (some p) = none)
  ∧ (∀ h p : ℚ, p ≤ 0 → calculate_wave_power_index (some h) (some p) = none)
  ∧ calculate_wave_power_index (some 2) (some 10) = some 40
  ∧ calculate_wave_power_index (some 1.5) (some 8) = some 18 := by
  refine ⟨?_, ?_, ?_, ?_, ?_, ?_, ?_⟩
  · intro h p h0 hp
    simp only [calculate_wave_power_index]
    rw [if_neg]
    rintro (hc | hc) <;> linarith
  · intro p
    cases p <;> rfl
  · intro h
    cases h <;> rfl
  · intro h p hneg
    simp only [calculate_wave_power_index]
    rw [if_pos (Or.inl hneg)]
  · intro h p hp
    simp only [calculate_wave_power_index]
    rw [if_pos (Or.inr hp)]
  · simp only [calculate_wave_power_index]
    norm_num
  · simp only [calculate_wave_power_index]
    norm_num

/-- Witness for C3: the universally quantified clause applied at height 2,
period 10. -/
theorem wpi_spec_witness :
    calculate_wave_power_index (some 2) (some 10) = some (2 ^ 2 * 10) :=
  wpi_spec.1 2 10 (by norm_num) (by norm_num)

/-- C4: `score_wave_power` is monotonically non-increasing in the WPI,
returns exactly 100 for WPI ≤ 5, exactly 0 for WPI ≥ 50, the linear
interpolation `100 × (50 − WPI) / 45` strictly between, and the neutral 50
when the WPI is unavailable. -/
theorem wave_power_score_spec :
    (∀ x y : ℚ, x ≤ y → score_wave_power (some y) ≤ score_wave_power (some x))
  ∧ (∀ w : ℚ, w ≤ 5 → score_wave_power (some w) = 100)
  ∧ (∀ w : ℚ, 50 ≤ w → score_wave_power (some w) = 0)
  ∧ (∀ w : ℚ, 5 < w → w < 50 →
      score_wave_power (some w) = 100 * (50 - w) / 45)
  ∧ score_wave_power none = 50 := by
  refine ⟨?_, ?_, ?_, ?_, rfl⟩
  · intro x y hxy
    rw [score_wave_power_eq, score_wave_power_eq]
    split_ifs with h1 h2 h3 h4 h5 h6 h7 <;> try linarith
  · intro w hw
    rw [score_wave_power_eq, if_pos hw]
  · intro w hw
    rw [score_wave_power_eq, if_neg (by linarith), if_pos hw]
  · intro w hw1 hw2
    rw [score_wave_power_eq, if_neg (by linarith), if_neg (by linarith)]

/-- Witness for C4: monotonicity applied at WPI 8 ≤ 30, and the boundary
values at 5 and 50. -/
theorem wave_power_score_spec_witness :
    score_wave_power (some 30) ≤ score_wave_power (some 8)
  ∧ score_wave_power (some 5) = 100
  ∧ score_wave_power (some 50) = 0 :=
  ⟨wave_power_score_spec.1 8 30 (by norm_num),
   wave_power_score_spec.2.1 5 (by norm_num),
   wave_power_score_spec.2.2.1 50 (by norm_num)⟩


/-- Helper: `score_wind` on fully known inputs, with the branch structure of
the source laid out. -/
theorem score_wind_known (s d : ℚ) (e : String) :
    score_wind (some s) (some d) (some e) =
      (if calculate_offshore_factor d e > 0.5 then
        (max 0 (min 100 (min 100 (speed_score s + calculate_offshore_factor d e * 30))), "offshore")
      else if calculate_offshore_factor d e < -0.5 then
        (max 0 (min 100 (max 0 (speed_score s - |calculate_offshore_factor d e| * (40 + s * 2)))), "onshore")
      else
        (max 0 (min 100 (speed_score s * 0.9)), "cross-shore")) := rfl

/-- C5: at any fixed speed strictly above 5 mph, a pure offshore factor (+1)
scores strictly higher than a pure onshore factor (−1); the offshore branch
is the speed score boosted by `factor × 30` (capped at 100), the onshore
branch subtracts the penalty `|factor| × (40 + 2 × speed)` (floored at 0). -/
theorem wind_offshore_beats_onshore (s d₁ d₂ : ℚ) (e₁ e₂ : String)
    (hs : 5 < s)
    (h1 : calculate_offshore_factor d₁ e₁ = 1)
    (h2 : calculate_offshore_factor d₂ e₂ = -1) :
    (score_wind (some s) (some d₁) (some e₁)).1 = min 100 (speed_score s + 30)
  ∧ (score_wind (some s) (some d₂) (some e₂)).1
      = max 0 (speed_score s - (40 + s * 2))
  ∧ (score_wind (some s) (some d₂) (some e₂)).1
      < (score_wind (some s) (some d₁) (some e₁)).1 := by
  have hb1 := speed_score_ge_20 s
  have hb2 := speed_score_le_100 s
  have hoff : (score_wind (some s) (some d₁) (some e₁)).1
      = min 100 (speed_score s + 30) := by
    rw [score_wind_known, h1]
    rw [if_pos (by norm_num : (1 : ℚ) > 0.5)]
    simp only
    have e30 : speed_score s + 1 * 30 = speed_score s + 30 := by ring
    rw [e30, ← min_assoc, min_self, max_eq_right]
    exact le_min (by norm_num) (by linarith)
  have hon : (score_wind (some s) (some d₂) (some e₂)).1
      = max 0 (speed_score s - (40 + s * 2)) := by
    rw [score_wind_known, h2]
    rw [if_neg (by norm_num : ¬ ((-1 : ℚ) > 0.5))]
    rw [if_pos (by norm_num : ((-1 : ℚ) < -0.5))]
    simp only
    have eabs : |(-1 : ℚ)| * (40 + s * 2) = 40 + s * 2 := by
      rw [abs_neg, abs_one]
      ring
    rw [eabs, min_eq_right, ← max_assoc, max_self]
    exact max_le (by norm_num) (by linarith)
  refine ⟨hoff, hon, ?_⟩
  rw [hoff, hon]
  have hA : (50 : ℚ) ≤ min 100 (speed_score s + 30) :=
    le_min (by norm_num) (by linarith)
  have hB : max 0 (speed_score s - (40 + s * 2)) < 50 :=
    max_lt (by norm_num) (by linarith)
  linarith

/-- Witness for C5: wind from 180° at an N-facing site is pure offshore,
wind from 0° is pure onshore, and at 10 mph offshore strictly beats
onshore. -/
theorem wind_offshore_beats_onshore_witness :
    (score_wind (some 10) (some 0) (some "N")).1
      < (score_wind (some 10) (some 180) (some "N")).1 := by
  have hN : exposureDegrees "N" = 0 := by
    rw [exposureDegrees, if_pos (by decide : pyUpper "N" = "N")]
  have hnorm180 : normalizeDiff 180 = 180 := by
    rw [normalizeDiff, if_neg (by norm_num), if_neg (by norm_num)]
  have hnorm0 : normalizeDiff 0 = 0 := by
    rw [normalizeDiff, if_neg (by norm_num), if_neg (by norm_num)]
  have hoff : calculate_offshore_factor 180 "N" = 1 := by
    rw [calculate_offshore_factor]
    rw [hN]
    norm_num [hnorm180]
  have hon : calculate_offshore_factor 0 "N" = -1 := by
    rw [calculate_offshore_factor]
    rw [hN]
    norm_num [hnorm0]
  exact (wind_offshore_beats_onshore 10 180 0 "N" "N" (by norm_num) hoff hon).2.2

/-- Helper: `calculate_score` when some safety gate failed. -/
theorem calculate_score_of_failed (n : ℕ) (inputs : ScoringInput)
    (h : (check_safety_gates inputs).1 = false) :
    calculate_score n inputs =
      { total_score := 0
        grade := ScoreGrade.UNSAFE
        diveable := false
        wave_power_score := 0
        wind_score := 0
        visibility_score := 0
        tide_score := 0
        time_score := 0
        safety_gates_passed := false
        failed_gates := (check_safety_gates inputs).2
        wave_power_index :=
          calculate_wave_power_index inputs.wave_height_ft inputs.wave_period_s
        summary := "CONDITIONS UNSAFE - " ++ String.intercalate "; "
          ((check_safety_gates inputs).2.map SafetyGate.reason)
        warnings := (check_safety_gates inputs).2.map SafetyGate.reason } := by
  simp only [calculate_score]
  rw [if_pos h]

/-- Helper: `calculate_score` when all safety gates passed. -/
theorem calculate_score_of_passed (n : ℕ) (inputs : ScoringInput)
    (h : (check_safety_gates inputs).1 = true) :
    calculate_score n inputs =
      { total_score := pyRound (weightedTotal n inputs) 1
        grade := score_to_grade (weightedTotal n inputs)
        diveable := decide (weightedTotal n inputs ≥ 40)
        wave_power_score := pyRound (score_wave_power
          (calculate_wave_power_index inputs.wave_height_ft inputs.wave_period_s)) 1
        wind_score := pyRound (score_wind inputs.wind_speed_mph
          inputs.wind_direction_deg inputs.site_swell_exposure_primary).1 1
        visibility_score := pyRound (score_visibility inputs.rainfall_48h_inches
          inputs.stream_discharge_cfs inputs.brown_water_advisory) 1
        tide_score := pyRound (score_tide inputs.tide_phase inputs.site_optimal_tide) 1
        time_score := pyRound (score_time_of_day n inputs.evaluation_hour) 1
        safety_gates_passed := true
        failed_gates := []
        wave_power_index :=
          match calculate_wave_power_index inputs.wave_height_ft inputs.wave_period_s with
          | some w => if w = 0 then none else some (pyRound w 2)
          | none => none
        wind_type := (score_wind inputs.wind_speed_mph
          inputs.wind_direction_deg inputs.site_swell_exposure_primary).2
        summary := generate_summary (score_to_grade (weightedTotal n inputs))
          (calculate_wave_power_index inputs.wave_height_ft inputs.wave_period_s)
          inputs
          (score_wind inputs.wind_speed_mph inputs.wind_direction_deg
            inputs.site_swell_exposure_primary).2
        warnings := build_warnings inputs
          (calculate_wave_power_index inputs.wave_height_ft inputs.wave_period_s)
          (score_wind inputs.wind_speed_mph inputs.wind_direction_deg
            inputs.site_swell_exposure_primary).2
          (score_visibility inputs.rainfall_48h_inches
            inputs.stream_discharge_cfs inputs.brown_water_advisory) } := by
  simp only [calculate_score]
  rw [if_neg (by simp [h])]

/-- Helper: the brown-water gate fires exactly when the advisory is set. -/
theorem brown_gate_of_true (inputs : ScoringInput)
    (h : inputs.brown_water_advisory = true) :
    brown_gate inputs =
      [{ passed := false, reason := brownWaterReason,
         gate_name := "brown_water_advisory" }] := by
  rw [brown_gate, if_pos h]

/-- Helper: an active brown-water advisory fails the safety gates. -/
theorem gates_fail_of_brown (inputs : ScoringInput)
    (h : inputs.brown_water_advisory = true) :
    (check_safety_gates inputs).1 = false := by
  simp [check_safety_gates, brown_gate_of_true inputs h]

/-- C1: with `brown_water_advisory = true`, `calculate_score` returns total
score exactly 0, grade F (UNSAFE), `diveable = false`, the failed gates in
the order the gates are checked (brown water first, then the wave gate),
and a summary that is the fixed prefix "CONDITIONS UNSAFE" followed by
every failed gate's reason in that order — for every other input value. -/
theorem brown_water_forces_zero (n : ℕ) (inputs : ScoringInput)
    (h : inputs.brown_water_advisory = true) :
    (calculate_score n inputs).total_score = 0
  ∧ (calculate_score n inputs).grade = ScoreGrade.UNSAFE
  ∧ (calculate_score n inputs).diveable = false
  ∧ (calculate_score n inputs).failed_gates =
      brown_gate inputs ++ wave_gate inputs
  ∧ (calculate_score n inputs).failed_gates.map SafetyGate.reason =
      brownWaterReason :: (wave_gate inputs).map SafetyGate.reason
  ∧ (calculate_score n inputs).summary =
      "CONDITIONS UNSAFE" ++ (" - " ++ String.intercalate "; "
        ((calculate_score n inputs).failed_gates.map SafetyGate.reason)) := by
  have hf := gates_fail_of_brown inputs h
  rw [calculate_score_of_failed n inputs hf]
  refine ⟨rfl, rfl, rfl, rfl, ?_, ?_⟩
  · simp [check_safety_gates, brown_gate_of_true inputs h, brownWaterReason]
  · rw [← String.append_assoc]
    rfl

/-- Witness for C1: the advisory alone zeroes the score. -/
theorem brown_water_forces_zero_witness :
    (calculate_score 7 { brown_water_advisory := true }).total_score = 0
  ∧ (calculate_score 7 { brown_water_advisory := true }).grade = ScoreGrade.UNSAFE
  ∧ (calculate_score 7 { brown_water_advisory := true }).diveable = false :=
  ⟨(brown_water_forces_zero 7 { brown_water_advisory := true } rfl).1,
   (brown_water_forces_zero 7 { brown_water_advisory := true } rfl).2.1,
   (brown_water_forces_zero 7 { brown_water_advisory := true } rfl).2.2.1⟩

/-- Helper: rounding an integer is the identity. -/
theorem roundHalfEven_intCast (m : ℤ) : roundHalfEven (m : ℚ) = m := by
  rw [roundHalfEven, Int.floor_intCast, if_pos]
  norm_num

/-- Helper: a firing wave gate fails the safety gates. -/
theorem gates_fail_of_wave (inputs : ScoringInput)
    (h : wave_gate inputs ≠ []) :
    (check_safety_gates inputs).1 = false := by
  have hne : brown_gate inputs ++ wave_gate inputs ≠ [] := by
    intro he
    exact h (List.append_eq_nil.mp he).2
  simp [check_safety_gates, hne]

/-- Helper: the wave gate fires iff the wave height is known and strictly
exceeds the per-site threshold when that is nonzero, else the global 6.0
default (the Python `or` fallback). -/
theorem wave_gate_fires_iff (inputs : ScoringInput) :
    wave_gate inputs ≠ [] ↔
      ∃ h : ℚ, inputs.wave_height_ft = some h ∧
        h > (if inputs.site_max_safe_height_ft = 0 then 6
             else inputs.site_max_safe_height_ft) := by
  have hm : (if inputs.site_max_safe_height_ft = 0 then (6 : ℚ)
       else inputs.site_max_safe_height_ft) = effective_max_height inputs := by
    rw [effective_max_height, MAX_WAVE_HEIGHT_FT]
    norm_num
  rw [hm]
  cases hw : inputs.wave_height_ft with
  | none => simp [wave_gate, hw]
  | some h0 =>
    by_cases hgt : h0 > effective_max_height inputs
    · simp only [wave_gate, hw]
      rw [if_pos hgt]
      simp only [ne_eq, List.cons_ne_nil, not_false_eq_true, true_iff]
      exact ⟨h0, rfl, hgt⟩
    · simp only [wave_gate, hw]
      rw [if_neg hgt]
      simp only [ne_eq, not_true_eq_false, false_iff, not_exists, not_and]
      intro x hx
      rw [Option.some_inj] at hx
      rw [← hx]
      exact hgt

/-- C2 (amended): the wave-height gate fires iff the wave height is known
and strictly greater than the threshold (equal does not fire), where the
threshold is the per-site value whenever it is nonzero and the global
default of 6.0 ft when the per-site value is 0 (Python falsiness encodes
"the location has none"); when the gate fires, total score is 0 and the
grade is F. -/
theorem wave_gate_spec (n : ℕ) (inputs : ScoringInput) :
    (wave_gate inputs ≠ [] ↔
      ∃ h : ℚ, inputs.wave_height_ft = some h ∧
        h > (if inputs.site_max_safe_height_ft = 0 then 6
             else inputs.site_max_safe_height_ft))
  ∧ (wave_gate inputs ≠ [] →
      (calculate_score n inputs).total_score = 0
      ∧ (calculate_score n inputs).grade = ScoreGrade.UNSAFE
      ∧ (calculate_score n inputs).diveable = false) := by
  refine ⟨wave_gate_fires_iff inputs, ?_⟩
  intro hne
  rw [calculate_score_of_failed n inputs (gates_fail_of_wave inputs hne)]
  exact ⟨rfl, rfl, rfl⟩

/-- Witness for C2 (amended): 7 ft waves against the default 6 ft threshold
fire the gate and zero the score. -/
theorem wave_gate_spec_witness :
    (calculate_score 7 { wave_height_ft := some 7 }).total_score = 0
  ∧ (calculate_score 7 { wave_height_ft := some 7 }).grade = ScoreGrade.UNSAFE := by
  have hfires : wave_gate ({ wave_height_ft := some 7 } : ScoringInput) ≠ [] := by
    rw [(wave_gate_spec 7 { wave_height_ft := some 7 }).1]
    refine ⟨7, rfl, ?_⟩
    norm_num
  exact ⟨((wave_gate_spec 7 { wave_height_ft := some 7 }).2 hfires).1,
         ((wave_gate_spec 7 { wave_height_ft := some 7 }).2 hfires).2.1⟩

/-- Counterexample to C2 as stated: a per-site threshold of 0 with a known
wave height of 3 ft — the claim says the gate prefers the per-site value
(3 > 0 should fire it), but the code replaces the falsy per-site 0.0 by the
global default 6.0, so no gate fires, the gates pass, and the total score
is 60 with grade C, not 0/F. -/
theorem wave_gate_per_site_zero_counterexample :
    ((({ wave_height_ft := some 3, site_max_safe_height_ft := 0 } :
        ScoringInput).site_max_safe_height_ft) < 3)
  ∧ wave_gate { wave_height_ft := some 3, site_max_safe_height_ft := 0 } = []
  ∧ (check_safety_gates
      { wave_height_ft := some 3, site_max_safe_height_ft := 0 }).1 = true
  ∧ (calculate_score 12
      { wave_height_ft := some 3, site_max_safe_height_ft := 0 }).total_score = 60
  ∧ (calculate_score 12
      { wave_height_ft := some 3, site_max_safe_height_ft := 0 }).grade
      = ScoreGrade.FAIR := by
  set i : ScoringInput := { wave_height_ft := some 3, site_max_safe_height_ft := 0 } with hi
  have hemh : effective_max_height i = 6 := by
    rw [effective_max_height]
    norm_num [hi, MAX_WAVE_HEIGHT_FT]
  have hwg : wave_gate i = [] := by
    simp only [wave_gate, hi]
    rw [hemh]
    norm_num
  have hpass : (check_safety_gates i).1 = true := by
    simp [check_safety_gates, brown_gate, hi, hwg]
  have c1 : score_wave_power
      (calculate_wave_power_index i.wave_height_ft i.wave_period_s) = 50 := rfl
  have c2 : (score_wind i.wind_speed_mph i.wind_direction_deg
      i.site_swell_exposure_primary).1 = 50 := rfl
  have c3 : score_visibility i.rainfall_48h_inches i.stream_discharge_cfs
      i.brown_water_advisory = 70 := rfl
  have c4 : score_tide i.tide_phase i.site_optimal_tide = 100 := rfl
  have c5 : score_time_of_day 12 i.evaluation_hour = 60 := rfl
  have htot : weightedTotal 12 i = 60 := by
    rw [weightedTotal, c1, c2, c3, c4, c5]
    norm_num [WEIGHT_WAVE_POWER, WEIGHT_WIND, WEIGHT_VISIBILITY, WEIGHT_TIDE,
      WEIGHT_TIME]
  rw [calculate_score_of_passed 12 i hpass]
  refine ⟨by norm_num [hi], hwg, hpass, ?_, ?_⟩
  · simp only [htot]
    rw [pyRound, show ((60 : ℚ) * 10 ^ 1) = ((600 : ℤ) : ℚ) by norm_num,
      roundHalfEven_intCast]
    norm_num
  · rw [htot, score_to_grade]
    norm_num

/-- Counterexample to C9 as stated: with a failing safety gate (brown-water
advisory) and WPI exactly 0 (height 0, period 5), `calculate_score` carries
the raw WPI `some 0`, not `none`. -/
theorem wpi_zero_reported_counterexample :
    calculate_wave_power_index (some 0) (some 5) = some 0
  ∧ (calculate_score 12
      { wave_height_ft := some 0, wave_period_s := some 5,
        brown_water_advisory := true }).wave_power_index = some 0 := by
  have hone : calculate_wave_power_index (some 0) (some 5) = some 0 := by
    simp only [calculate_wave_power_index]
    norm_num
  refine ⟨hone, ?_⟩
  rw [calculate_score_of_failed 12 _ (gates_fail_of_brown _ rfl)]
  exact hone

/-- C9 (amended): for every input that passes the safety gates, a computed
WPI of exactly 0 is reported as `None` (Python truthiness of `0.0` in
`round(wpi, 2) if wpi else None`), and a non-zero WPI is reported rounded
to two decimal places. -/
theorem wpi_reporting_spec (n : ℕ) (inputs : ScoringInput)
    (hpass : (check_safety_gates inputs).1 = true) :
    (calculate_wave_power_index inputs.wave_height_ft inputs.wave_period_s
        = some 0 →
      (calculate_score n inputs).wave_power_index = none)
  ∧ (∀ w : ℚ, w ≠ 0 →
      calculate_wave_power_index inputs.wave_height_ft inputs.wave_period_s
        = some w →
      (calculate_score n inputs).wave_power_index = some (pyRound w 2)) := by
  rw [calculate_score_of_passed n inputs hpass]
  constructor
  · intro h0
    simp only [h0]
    simp
  · intro w hw h
    simp only [h]
    rw [if_neg hw]

/-- Witness for C9 (amended): height 0 and period 5 pass the gates, the WPI
is a defined 0, yet the result reports no wave-power index. -/
theorem wpi_reporting_spec_witness :
    (calculate_score 12
      { wave_height_ft := some 0, wave_period_s := some 5 }).wave_power_index
      = none := by
  have hpass : (check_safety_gates
      ({ wave_height_ft := some 0, wave_period_s := some 5 } : ScoringInput)).1
      = true := by
    have hwg : wave_gate
        ({ wave_height_ft := some 0, wave_period_s := some 5 } : ScoringInput)
        = [] := by
      simp only [wave_gate]
      rw [if_neg]
      rw [effective_max_height]
      norm_num [MAX_WAVE_HEIGHT_FT]
    simp [check_safety_gates, brown_gate, hwg]
  refine (wpi_reporting_spec 12 _ hpass).1 ?_
  simp only [calculate_wave_power_index]
  norm_num

/-- C6: over [0,100] the grade bands are contiguous and exhaustive with
closed lower bounds (≥85 A, ≥70 B, ≥55 C, ≥40 D, else F) — each score maps
to exactly one grade, characterized by the five disjoint interval
conditions; for every gates-passing input the diveable boolean equals
`total_score ≥ 40` (computed at full precision, as the spec prescribes);
and a total of exactly 40 yields grade D and `diveable = true`. -/
theorem grade_bands_spec :
    (∀ s : ℚ, 0 ≤ s → s ≤ 100 →
      ((score_to_grade s = ScoreGrade.EXCELLENT ↔ 85 ≤ s)
       ∧ (score_to_grade s = ScoreGrade.GOOD ↔ 70 ≤ s ∧ s < 85)
       ∧ (score_to_grade s = ScoreGrade.FAIR ↔ 55 ≤ s ∧ s < 70)
       ∧ (score_to_grade s = ScoreGrade.POOR ↔ 40 ≤ s ∧ s < 55)
       ∧ (score_to_grade s = ScoreGrade.UNSAFE ↔ s < 40)))
  ∧ (∀ (n : ℕ) (inputs : ScoringInput),
      (check_safety_gates inputs).1 = true →
      ((calculate_score n inputs).diveable = true ↔
        40 ≤ weightedTotal n inputs))
  ∧ (∀ (n : ℕ) (inputs : ScoringInput),
      (check_safety_gates inputs).1 = true →
      weightedTotal n inputs = 40 →
      (calculate_score n inputs).grade = ScoreGrade.POOR
      ∧ (calculate_score n inputs).diveable = true) := by
  refine ⟨?_, ?_, ?_⟩
  · intro s h0 h100
    simp only [score_to_grade, ge_iff_le]
    split_ifs with hA hB hC hD <;> push_neg at * <;>
      refine ⟨?_, ?_, ?_, ?_, ?_⟩ <;> simp <;>
      first
        | linarith
        | (intro h; linarith)
        | (constructor <;> linarith)
  · intro n inputs hpass
    rw [calculate_score_of_passed n inputs hpass]
    simp [ge_iff_le]
  · intro n inputs hpass h40
    rw [calculate_score_of_passed n inputs hpass]
    constructor
    · rw [h40, score_to_grade]
      norm_num
    · rw [h40]
      norm_num

/-- Witness for C6: an input whose exact weighted total is 40 gets grade D
and is diveable. -/
theorem grade_bands_spec_witness :
    (calculate_score 0
      { wave_height_ft := some 1, wave_period_s := some (583/14),
        tide_phase := some "low", site_optimal_tide := "high",
        evaluation_hour := some 23 }).grade = ScoreGrade.POOR
  ∧ (calculate_score 0
      { wave_height_ft := some 1, wave_period_s := some (583/14),
        tide_phase := some "low", site_optimal_tide := "high",
        evaluation_hour := some 23 }).diveable = true := by
  set i : ScoringInput :=
    { wave_height_ft := some 1, wave_period_s := some (583/14),
      tide_phase := some "low", site_optimal_tide := "high",
      evaluation_hour := some 23 } with hi
  have hwg : wave_gate i = [] := by
    simp only [wave_gate, hi]
    rw [if_neg]
    rw [effective_max_height]
    norm_num [MAX_WAVE_HEIGHT_FT]
  have hpass : (check_safety_gates i).1 = true := by
    simp [check_safety_gates, brown_gate, hi, hwg]
  have c0 : calculate_wave_power_index i.wave_height_ft i.wave_period_s
      = some (583/14) := by
    show calculate_wave_power_index (some 1) (some (583/14)) = some (583/14)
    simp only [calculate_wave_power_index]
    norm_num
  have c1 : score_wave_power
      (calculate_wave_power_index i.wave_height_ft i.wave_period_s)
      = 130/7 := by
    rw [c0, score_wave_power_eq]
    norm_num
  have c2 : (score_wind i.wind_speed_mph i.wind_direction_deg
      i.site_swell_exposure_primary).1 = 50 := rfl
  have c3 : score_visibility i.rainfall_48h_inches i.stream_discharge_cfs
      i.brown_water_advisory = 70 := rfl
  have c4 : score_tide i.tide_phase i.site_optimal_tide = 30 := by
    show score_tide (some "low") "high" = 30
    rw [score_tide]
    rw [if_neg (by decide : ¬ ("high" : String) = "any")]
    simp only
    rw [if_neg (by decide : ¬ pyLower "high" = pyLower "low")]
    rw [if_pos (by decide : pyLower "high" = "high")]
    rw [if_neg (by decide : ¬ pyLower "low" = "rising")]
    rw [if_neg (by decide : ¬ pyLower "low" = "falling")]
  have c5 : score_time_of_day 0 i.evaluation_hour = 40 := rfl
  have h40 : weightedTotal 0 i = 40 := by
    rw [weightedTotal, c1, c2, c3, c4, c5]
    norm_num [WEIGHT_WAVE_POWER, WEIGHT_WIND, WEIGHT_VISIBILITY, WEIGHT_TIDE,
      WEIGHT_TIME]
  exact grade_bands_spec.2.2 0 i hpass h40

/-- Helper: when every site scores successfully with a non-negative total
and `min_score = 0`, no site is dropped by the scoring loop. -/
theorem scored_sites_length {α : Type} (scoreSite : α → Except String ScoringResult)
    (sites : List α)
    (hok : ∀ s ∈ sites, ∃ r, scoreSite s = Except.ok r ∧ 0 ≤ r.total_score) :
    (scored_sites scoreSite sites 0).length = sites.length := by
  induction sites with
  | nil => rfl
  | cons a l ih =>
    obtain ⟨r, hr, h0⟩ := hok a (List.mem_cons_self a l)
    have hrest : ∀ s ∈ l, ∃ r, scoreSite s = Except.ok r ∧ 0 ≤ r.total_score :=
      fun s hs => hok s (List.mem_cons_of_mem a hs)
    simp only [scored_sites, List.filterMap_cons, hr]
    rw [if_pos (by exact_mod_cast h0)]
    simp only [List.length_cons]
    rw [← ih hrest]
    rfl

/-- Helper: rank assignment preserves length. -/
theorem assign_ranks_length {α : Type} (n : ℕ) (l : List (RankedSite α)) :
    (assign_ranks n l).length = l.length := by
  induction l generalizing n with
  | nil => rfl
  | cons x xs ih =>
    simp [assign_ranks, ih]

/-- Helper: rank assignment writes the consecutive ranks `n, n+1, ...`. -/
theorem assign_ranks_map_rank {α : Type} (n : ℕ) (l : List (RankedSite α)) :
    (assign_ranks n l).map RankedSite.rank = List.range' n l.length := by
  induction l generalizing n with
  | nil => rfl
  | cons x xs ih =>
    simp [assign_ranks, List.range', ih]

/-- Helper: rank assignment does not change the scores. -/
theorem assign_ranks_map_score {α : Type} (n : ℕ) (l : List (RankedSite α)) :
    (assign_ranks n l).map (fun r => r.score.total_score) =
      l.map (fun r => r.score.total_score) := by
  induction l generalizing n with
  | nil => rfl
  | cons x xs ih =>
    simp [assign_ranks, ih]

/-- Helper: rank assignment preserves the descending-score ordering. -/
theorem assign_ranks_pairwise {α : Type} (n : ℕ) (l : List (RankedSite α))
    (h : List.Pairwise rankGE l) :
    List.Pairwise rankGE (assign_ranks n l) := by
  have h1 : List.Pairwise (fun x y : ℚ => y ≤ x)
      (l.map fun r => r.score.total_score) :=
    (@List.pairwise_map (RankedSite α) ℚ
      (fun r => r.score.total_score) (fun x y => y ≤ x) l).2 h
  rw [← assign_ranks_map_score n l] at h1
  exact (@List.pairwise_map (RankedSite α) ℚ
    (fun r => r.score.total_score) (fun x y => y ≤ x) (assign_ranks n l)).1 h1

/-- Helper: inserting into the descending order places an element before
exactly the strictly smaller scores, so restricting to one score value
prepends it (ties in `rankGE` keep the inserted element first). -/
theorem filter_orderedInsert_score {α : Type} (q : ℚ) (a : RankedSite α)
    (l : List (RankedSite α)) :
    (List.orderedInsert rankGE a l).filter (fun r => r.score.total_score = q)
      = if a.score.total_score = q then
          a :: l.filter (fun r => r.score.total_score = q)
        else l.filter (fun r => r.score.total_score = q) := by
  induction l with
  | nil =>
    by_cases ha : a.score.total_score = q <;>
      simp [List.orderedInsert, List.filter, ha]
  | cons b bs ih =>
    by_cases hab : rankGE a b
    · rw [List.orderedInsert, if_pos hab]
      by_cases ha : a.score.total_score = q <;>
        simp [List.filter_cons, ha]
    · rw [List.orderedInsert, if_neg hab]
      have hlt : a.score.total_score < b.score.total_score := not_le.mp hab
      by_cases ha : a.score.total_score = q
      · have hb : ¬ b.score.total_score = q := by
          rw [← ha]
          exact (ne_of_gt hlt)
        simp [List.filter_cons, ha, hb, ih]
      · by_cases hb : b.score.total_score = q <;>
          simp [List.filter_cons, ha, hb, ih]

/-- Helper: stability of the sort — the sublist of entries with any fixed
total score is unchanged by sorting. -/
theorem filter_insertionSort_score {α : Type} (q : ℚ)
    (l : List (RankedSite α)) :
    (List.insertionSort rankGE l).filter (fun r => r.score.total_score = q)
      = l.filter (fun r => r.score.total_score = q) := by
  induction l with
  | nil => rfl
  | cons a l ih =>
    rw [List.insertionSort, filter_orderedInsert_score]
    by_cases ha : a.score.total_score = q <;>
      simp [List.filter_cons, ha, ih]

/-- Helper: rank assignment does not reorder the sites within one score
value. -/
theorem assign_ranks_filter_map_site {α : Type} (q : ℚ) (n : ℕ)
    (l : List (RankedSite α)) :
    ((assign_ranks n l).filter
        (fun r => r.score.total_score = q)).map RankedSite.site
      = (l.filter (fun r => r.score.total_score = q)).map RankedSite.site := by
  induction l generalizing n with
  | nil => rfl
  | cons x xs ih =>
    by_cases hx : x.score.total_score = q <;>
      simp [assign_ranks, List.filter_cons, hx, ih]

/-- C7: for a batch of N locations in which no scoring fails (all results
non-negative, as `calculate_score` guarantees) and `min_score = 0`,
`rank_sites` returns exactly N entries, sorted descending by total score,
with ranks exactly 1..N in sorted order; ties keep the original encounter
order (the entries at any fixed score are exactly the scored list’s entries
at that score, in order), and `top_n` truncation happens only after rank
assignment (the truncated result is a prefix of the untruncated one). -/
theorem rank_sites_spec {α : Type} (scoreSite : α → Except String ScoringResult)
    (sites : List α)
    (hok : ∀ s ∈ sites, ∃ r, scoreSite s = Except.ok r ∧ 0 ≤ r.total_score) :
    (rank_sites scoreSite sites 0 none).length = sites.length
  ∧ List.Pairwise (fun a b => b.score.total_score ≤ a.score.total_score)
      (rank_sites scoreSite sites 0 none)
  ∧ (rank_sites scoreSite sites 0 none).map RankedSite.rank
      = List.range' 1 sites.length
  ∧ (∀ q : ℚ, ((rank_sites scoreSite sites 0 none).filter
        (fun r => r.score.total_score = q)).map RankedSite.site
      = ((scored_sites scoreSite sites 0).filter
        (fun r => r.score.total_score = q)).map RankedSite.site)
  ∧ (∀ m : ℕ, m ≠ 0 → rank_sites scoreSite sites 0 (some m)
      = (rank_sites scoreSite sites 0 none).take m) := by
  have hlen1 : (List.insertionSort rankGE
      (scored_sites scoreSite sites 0)).length = sites.length := by
    rw [(List.perm_insertionSort rankGE _).length_eq]
    exact scored_sites_length scoreSite sites hok
  refine ⟨?_, ?_, ?_, ?_, ?_⟩
  · show (assign_ranks 1 _).length = _
    rw [assign_ranks_length, hlen1]
  · exact assign_ranks_pairwise 1 _ (List.sorted_insertionSort rankGE _)
  · show (assign_ranks 1 _).map _ = _
    rw [assign_ranks_map_rank, hlen1]
  · intro q
    show ((assign_ranks 1 _).filter _).map _ = _
    rw [assign_ranks_filter_map_site, filter_insertionSort_score]
  · intro m hm
    simp [rank_sites, hm]

/-- A fixed scoring result used by the ranking witnesses. -/
def demoResult : ScoringResult :=
  { total_score := 50, grade := ScoreGrade.FAIR, diveable := true,
    wave_power_score := 50, wind_score := 50, visibility_score := 70,
    tide_score := 100, time_score := 60, safety_gates_passed := true,
    failed_gates := [] }

/-- Witness for C7: two sites with equal scores rank 1 and 2 in encounter
order. -/
theorem rank_sites_spec_witness :
    (rank_sites (fun _ : ℕ => Except.ok demoResult) [7, 8] 0 none).length = 2
  ∧ (rank_sites (fun _ : ℕ => Except.ok demoResult) [7, 8] 0 none).map
      RankedSite.rank = [1, 2] := by
  have h := rank_sites_spec (fun _ : ℕ => Except.ok demoResult) [7, 8]
    (fun s _ => ⟨demoResult, rfl, by norm_num [demoResult]⟩)
  refine ⟨by simpa using h.1, ?_⟩
  have h2 := h.2.2.1
  simpa using h2

/-- C8: when scoring exactly one location of a batch raises (models as
`Except.error`), `rank_sites` returns the same list as for the batch
without that location — N−1 entries — and, being a total function on the
error-valued scorer, never propagates the failure. -/
theorem rank_sites_omits_failure {α : Type}
    (scoreSite : α → Except String ScoringResult)
    (pre post : List α) (bad : α) (e : String)
    (hbad : scoreSite bad = Except.error e)
    (hok : ∀ s ∈ pre ++ post,
      ∃ r, scoreSite s = Except.ok r ∧ 0 ≤ r.total_score) :
    rank_sites scoreSite (pre ++ bad :: post) 0 none
      = rank_sites scoreSite (pre ++ post) 0 none
  ∧ (rank_sites scoreSite (pre ++ bad :: post) 0 none).length
      = (pre ++ bad :: post).length - 1 := by
  have hsl : scored_sites scoreSite (pre ++ bad :: post) 0
      = scored_sites scoreSite (pre ++ post) 0 := by
    simp only [scored_sites, List.filterMap_append, List.filterMap_cons, hbad]
  have heq : rank_sites scoreSite (pre ++ bad :: post) 0 none
      = rank_sites scoreSite (pre ++ post) 0 none := by
    simp only [rank_sites, hsl]
  refine ⟨heq, ?_⟩
  rw [heq]
  show (assign_ranks 1 _).length = _
  rw [assign_ranks_length, (List.perm_insertionSort rankGE _).length_eq,
    scored_sites_length scoreSite _ hok]
  simp only [List.length_append, List.length_cons]
  omega

/-- Witness for C8: a three-site batch whose middle site errors yields two
ranked entries. -/
theorem rank_sites_omits_failure_witness :
    (rank_sites
      (fun k : ℕ => if k = 0 then Except.error "boom" else Except.ok demoResult)
      [1, 0, 2] 0 none).length = 2 := by
  have h := rank_sites_omits_failure
    (fun k : ℕ => if k = 0 then Except.error "boom" else Except.ok demoResult)
    [1] [2] 0 "boom" rfl
    (by
      intro s hs
      refine ⟨demoResult, ?_, by norm_num [demoResult]⟩
      simp only [List.mem_append, List.mem_singleton] at hs
      rcases hs with h1 | h1 <;> subst h1 <;> rfl)
  simpa using h.2

/-- C10: every site reaching `digest.top_sites`, the TODAY recommended-beach
list, or a FUTURE-day recommended-beach list has a name that does not
contain "hanauma" case-insensitively, while `total_sites` and
`diveable_sites` are computed over the unfiltered ranked list and therefore
still count the Hanauma entries (the counts split as hanauma-part plus
non-hanauma-part). -/
theorem digest_excludes_hanauma :
    (∀ (ranked : List DigestSite) (n : ℕ) (r : DigestSite),
      r ∈ digest_top_sites ranked n → containsHanauma r.name = false)
  ∧ (∀ (ranked : List DigestSite) (r : DigestSite),
      r ∈ today_recommended ranked → containsHanauma r.name = false)
  ∧ (∀ (oracle : DigestSite → Option ℚ) (ranked : List DigestSite)
      (r : DigestSite),
      r ∈ future_recommended oracle ranked → containsHanauma r.name = false)
  ∧ (∀ ranked : List DigestSite,
      digest_total_sites ranked
        = (ranked.filter (fun r => containsHanauma r.name)).length
          + (ranked.filter (fun r => ¬ containsHanauma r.name)).length)
  ∧ (∀ ranked : List DigestSite,
      digest_diveable_sites ranked
        = ((ranked.filter (fun r => containsHanauma r.name)).filter
            (fun r => r.diveable)).length
          + ((ranked.filter (fun r => ¬ containsHanauma r.name)).filter
            (fun r => r.diveable)).length) := by
  refine ⟨?_, ?_, ?_, ?_, ?_⟩
  · intro ranked n r hr
    have hr2 := List.mem_of_mem_take hr
    have := List.of_mem_filter hr2
    simpa using this
  · intro ranked r hr
    have := List.of_mem_filter hr
    simp only [Bool.and_eq_true, Bool.not_eq_true'] at this
    exact this.1
  · intro oracle ranked r hr
    have := List.of_mem_filter hr
    simp only [Bool.and_eq_true, Bool.not_eq_true'] at this
    exact this.1
  · intro ranked
    induction ranked with
    | nil => rfl
    | cons x xs ih =>
      by_cases hx : containsHanauma x.name = true <;>
        simp [digest_total_sites, List.filter_cons, hx] at ih ⊢ <;>
        omega
  · intro ranked
    induction ranked with
    | nil => rfl
    | cons x xs ih =>
      by_cases hx : containsHanauma x.name = true <;>
        by_cases hd : x.diveable = true <;>
        simp [digest_diveable_sites, List.filter_cons, hx, hd] at ih ⊢ <;>
        omega

/-- Witness for C10: in a batch containing Hanauma Bay, a site drawn from
the top-sites list is never a Hanauma match. -/
theorem digest_excludes_hanauma_witness :
    containsHanauma
      (({ name := "Sharks Cove", diveable := true } : DigestSite)).name
      = false := by
  have hmem : ({ name := "Sharks Cove", diveable := true } : DigestSite)
      ∈ digest_top_sites
        [{ name := "Hanauma Bay", diveable := true },
         { name := "Sharks Cove", diveable := true }] 5 := by decide
  exact digest_excludes_hanauma.1 _ 5 _ hmem
